import Mathlib

/-!
Verification development for the gesture recognition and stabilization engine
of the gamay-asl application (src/app/page.tsx).

Conventions of the embedding:

* JS numbers are idealized as `ℚ`.  The source computes planar distances as
  `dist(p1, p2, scale) = Math.sqrt((p1.x-p2.x)^2 + (p1.y-p2.y)^2) / scale`
  (page.tsx lines 188-191) and uses them only in comparisons against
  nonnegative thresholds or against other such distances times a nonnegative
  ratio.  Since `Math.sqrt` is strictly monotone on the nonnegatives and
  `scale > 0`, each comparison `dist(a,b,scale) ⊙ c` holds iff
  `dsq a b / scale² ⊙ c²` where `dsq` is the squared planar distance; the
  geometric classifier is therefore embedded with squared distances and
  squared threshold constants (e.g. the source threshold 0.35 appears below
  as 49/400 = 0.35²).  This transformation is exact, not an approximation.
* The k-nearest-neighbor code stores the square root itself; there it is
  embedded through `ratSqrt`, the exact rational floor square root, which
  agrees with the real square root on perfect squares (all concrete inputs
  evaluated in this file) and, like it, is nonnegative and maps 0 to 0 -
  the only facts about the stored roots any theorem below relies on.
* Mutable React refs/state are modeled as an explicit state record threaded
  through a pure per-frame step function, frames strictly ordered (spec §5).
* JS exceptions (property access on `undefined`) are modeled with `Except`.
-/

namespace Gamay

/-- Landmark: one tracked 3D hand point `{x, y, z}` (page.tsx line 13). -/
structure Landmark where
  x : ℚ
  y : ℚ
  z : ℚ
deriving DecidableEq, Repr, Inhabited

/-- Squared planar distance between two landmarks.  The source `dist`
(page.tsx 188-191) is `Math.sqrt` of this, divided by `scale`; see the header
comment for why comparisons are carried in squared form. -/
def dsq (p1 p2 : Landmark) : ℚ :=
  (p1.x - p2.x) ^ 2 + (p1.y - p2.y) ^ 2

/-- Normalized squared distance: the square of the source's
`dist(p1, p2, scale)`, with `s = scale²`. -/
def ndsq (p1 p2 : Landmark) (s : ℚ) : ℚ := dsq p1 p2 / s

/-- JS array read `landmarks[i]` for indices known to be in bounds.  Reads
beyond the end of the array (JS `undefined`) are handled separately by
`recognizeGeometricGesture`, the only place the source can perform them. -/
def lmAt (l : List Landmark) (i : ℕ) : Landmark := l.getD i default

/-- Squared palm size: square of `dist(wrist, middleMCP, 1.0)`
(page.tsx line 238). -/
def palmSizeSq (l : List Landmark) : ℚ := dsq (lmAt l 0) (lmAt l 9)

/-- Square of the reference scale:
`scale = palmSize > 0.01 ? palmSize : 0.1` (page.tsx line 239), so
`scale² = palmSize² > 0.0001 ? palmSize² : 0.01`. -/
def scaleSq (l : List Landmark) : ℚ :=
  if palmSizeSq l > 1 / 10000 then palmSizeSq l else 1 / 100

/-- The four non-thumb fingers, standing for the `fingerName` strings the
source maps through `fingerMap` (page.tsx 194-197). -/
inductive Finger
  | index
  | middle
  | ring
  | pinky
deriving DecidableEq, Repr

/-- The `fingerMap` table (page.tsx 194-196). -/
def Finger.idx : Finger → ℕ
  | .index => 1
  | .middle => 2
  | .ring => 3
  | .pinky => 4

/-- Finger extension test `getFingerState` (page.tsx 193-204):
`dist(tip, wrist, scale) > dist(pip, wrist, scale) * 1.2`, squared
(1.2² = 36/25), with `tip = landmarks[idx*4+4]`, `pip = landmarks[idx*4+2]`. -/
def getFingerState (l : List Landmark) (f : Finger) (s : ℚ) : Bool :=
  let tip := lmAt l (f.idx * 4 + 4)
  let pip := lmAt l (f.idx * 4 + 2)
  let wrist := lmAt l 0
  decide (ndsq tip wrist s > ndsq pip wrist s * (36 / 25))

/-- Thumb extension test `isThumbExtended` (page.tsx 206-217):
far-from-palm ratio 1.3 (squared: 169/100) and straightness ratio 1.0. -/
def isThumbExtended (l : List Landmark) (s : ℚ) : Bool :=
  let thumbTip := lmAt l 4
  let thumbIP := lmAt l 3
  let thumbMCP := lmAt l 2
  let pinkyMCP := lmAt l 17
  decide (ndsq thumbTip pinkyMCP s > ndsq thumbMCP pinkyMCP s * (169 / 100)) &&
    decide (ndsq thumbTip thumbMCP s > ndsq thumbIP thumbMCP s * 1)

/-- All boolean measurements the hierarchical classifier
`recognizeGeometricGesture` (page.tsx 220-381) branches on, each one the
squared-form transcription of one source comparison.  The source evaluates
them inline; hoisting these pure comparisons is observation-equivalent. -/
structure GeoMeas where
  indExt : Bool
  midExt : Bool
  rinExt : Bool
  pinExt : Bool
  thumbExt : Bool
  indexCurledHalfway : Bool
  tiLt035 : Bool
  tiGt035 : Bool
  tiLt13 : Bool
  thumbNearIxMCP06 : Bool
  tiLt04 : Bool
  thumbUpY : Bool
  thumbNearIxPIP06 : Bool
  isRightHand : Bool
  ixTipXgtMidTipX : Bool
  ixTipXltMidTipX : Bool
  ixMidTipClose035 : Bool
  thumbMidTipClose05 : Bool
  ixHookGt07 : Bool
  ixHookLt13 : Bool
  thumbXgtMidMCP : Bool
  thumbXltMidMCP : Bool
  thumbXltIxMCP : Bool
  thumbXgtIxMCP : Bool
  thumbLowY : Bool
  thumbNearIxMCP07 : Bool
  fingersTight : Bool
  thumbXgtRingMCP : Bool
  thumbXltRingMCP : Bool
deriving DecidableEq, Repr

/-- Measurement phase of `recognizeGeometricGesture` (page.tsx 223-261 and the
comparisons appearing inside its branches).  Squared thresholds:
0.35²=49/400, 1.3²=169/100, 0.6²=9/25, 0.4²=4/25, 0.9²=81/100, 0.5²=1/4,
0.7²=49/100, 0.85²=289/400. -/
def measure (l : List Landmark) : GeoMeas :=
  let s := scaleSq l
  let thumbTip := lmAt l 4
  let indexTip := lmAt l 8
  let indexPIP := lmAt l 6
  let indexMCP := lmAt l 5
  let middleTip := lmAt l 12
  let middleMCP := lmAt l 9
  let ringMCP := lmAt l 13
  let pinkyMCP := lmAt l 17
  let iE := getFingerState l .index s
  { indExt := iE
    midExt := getFingerState l .middle s
    rinExt := getFingerState l .ring s
    pinExt := getFingerState l .pinky s
    thumbExt := isThumbExtended l s
    indexCurledHalfway := !iE && decide (ndsq indexTip indexMCP s > 81 / 100)
    tiLt035 := decide (ndsq thumbTip indexTip s < 49 / 400)
    tiGt035 := decide (ndsq thumbTip indexTip s > 49 / 400)
    tiLt13 := decide (ndsq thumbTip indexTip s < 169 / 100)
    thumbNearIxMCP06 := decide (ndsq thumbTip indexMCP s < 9 / 25)
    tiLt04 := decide (ndsq thumbTip indexTip s < 4 / 25)
    thumbUpY := decide (thumbTip.y < indexMCP.y)
    thumbNearIxPIP06 := decide (ndsq thumbTip indexPIP s < 9 / 25)
    isRightHand := decide (indexMCP.x < pinkyMCP.x)
    ixTipXgtMidTipX := decide (indexTip.x > middleTip.x)
    ixTipXltMidTipX := decide (indexTip.x < middleTip.x)
    ixMidTipClose035 := decide (ndsq indexTip middleTip s < 49 / 400)
    thumbMidTipClose05 := decide (ndsq thumbTip middleTip s < 1 / 4)
    ixHookGt07 := decide (ndsq indexTip indexMCP s > 49 / 100)
    ixHookLt13 := decide (ndsq indexTip indexMCP s < 169 / 100)
    thumbXgtMidMCP := decide (thumbTip.x > middleMCP.x)
    thumbXltMidMCP := decide (thumbTip.x < middleMCP.x)
    thumbXltIxMCP := decide (thumbTip.x < indexMCP.x)
    thumbXgtIxMCP := decide (thumbTip.x > indexMCP.x)
    thumbLowY := decide (thumbTip.y > indexMCP.y)
    thumbNearIxMCP07 := decide (ndsq thumbTip indexMCP s < 49 / 100)
    fingersTight := decide (ndsq indexTip indexMCP s < 289 / 400)
    thumbXgtRingMCP := decide (thumbTip.x > ringMCP.x)
    thumbXltRingMCP := decide (thumbTip.x < ringMCP.x) }

/-- `extendedCount` (page.tsx line 261): number of extended non-thumb
fingers. -/
def extendedCount (m : GeoMeas) : ℕ :=
  [m.indExt, m.midExt, m.rinExt, m.pinExt].count true

/-- Decision phase of `recognizeGeometricGesture` (page.tsx 252-381): the
hierarchical first-match-wins rule cascade, transcribed branch for branch in
source order over the hoisted measurements. -/
def geoDecide (m : GeoMeas) : Option String :=
  let allCurled := !m.indExt && !m.midExt && !m.rinExt && !m.pinExt
  if allCurled && m.indexCurledHalfway && m.tiLt035 then some "O"
  else if allCurled && m.indexCurledHalfway && (m.tiGt035 && m.tiLt13) then some "C"
  else if extendedCount m == 4 then
    (if m.thumbNearIxMCP06 then some "4" else some "5")
  else if extendedCount m == 3 && (m.indExt && m.midExt && m.rinExt) then some "W"
  else if extendedCount m == 3 && (m.midExt && m.rinExt && m.pinExt) then
    (if m.tiLt04 then some "F" else some "OK")
  else if extendedCount m == 2 && (m.thumbExt && m.indExt && m.midExt) then some "3"
  else if extendedCount m == 2 && (m.indExt && m.midExt) then
    (if m.thumbUpY && m.thumbNearIxPIP06 && !m.thumbExt then some "K"
     else if (if m.isRightHand then m.ixTipXgtMidTipX else m.ixTipXltMidTipX) then some "R"
     else if m.ixMidTipClose035 then some "U"
     else some "V")
  else if extendedCount m == 1 && (m.indExt && m.thumbExt) then some "L"
  else if extendedCount m == 1 && m.indExt then
    (if m.thumbMidTipClose05 then some "D" else some "1")
  else if extendedCount m == 1 && m.pinExt then
    (if m.thumbExt then some "Y" else some "I")
  else if extendedCount m == 0 then
    (if m.ixHookGt07 && m.ixHookLt13 then some "X"
     else if (if m.isRightHand then m.thumbXgtMidMCP else m.thumbXltMidMCP) && m.thumbUpY then
       some "S"
     else if (if m.isRightHand then m.thumbXltIxMCP && m.thumbXgtMidMCP
              else m.thumbXgtIxMCP && m.thumbXltMidMCP) && m.thumbNearIxPIP06 then
       some "T"
     else if m.thumbLowY && m.thumbNearIxMCP07 && m.fingersTight then some "E"
     else if (if m.isRightHand then m.thumbXgtRingMCP else m.thumbXltRingMCP) then some "M"
     else if (if m.isRightHand then m.thumbXgtMidMCP else m.thumbXltMidMCP) then some "N"
     else some "A")
  else none

/-- The geometric classifier on an array already known to hold the full
21-landmark skeleton. -/
def geoCore (l : List Landmark) : Option String := geoDecide (measure l)

/-- `recognizeGeometricGesture` (page.tsx 220-381) including its JS failure
behavior.  The source guards only `landmarks.length === 0` (line 221,
returning `null`).  For a non-empty array it unconditionally computes, in
order, `palmSize` (reads indices 0, 9), the four `getFingerState` calls
(reads 8/6, 12/10, 16/14 and finally 20/18), `isThumbExtended` (4, 3, 2, 17),
`thumbIndexDist` (4, 8) and `indexCurledHalfway` (8, 5); every branch only
reads indices ≤ 20 after that.  Hence for `1 ≤ length ≤ 20` some read
`landmarks[i]` with `i ≥ length` yields `undefined` before any branch is
taken - at latest `landmarks[20]` in the pinky check - and the following
property access `.x` inside `dist` throws a TypeError, modeled here as
`Except.error`.  For `length ≥ 21` no out-of-bounds read happens and the
classifier is total. -/
def recognizeGeometricGesture (landmarks : List Landmark) : Except Unit (Option String) :=
  if landmarks.length = 0 then .ok none
  else if 21 ≤ landmarks.length then .ok (geoCore landmarks)
  else .error ()

/-- Uniform scaling of one point about the wrist by factor `k`:
`p ↦ wrist + k·(p − wrist)`, the transform quantified over by the
scale-invariance property (spec §8). -/
def scalePt (k : ℚ) (w p : Landmark) : Landmark :=
  ⟨w.x + k * (p.x - w.x), w.y + k * (p.y - w.y), w.z + k * (p.z - w.z)⟩

/-- Uniform scaling of a whole landmark array about its wrist (landmark 0). -/
def scaleAbout (k : ℚ) (l : List Landmark) : List Landmark :=
  l.map (scalePt k (lmAt l 0))

/-- Shorthand for a landmark lying in the camera plane (`z = 0`; the
classifier never reads `z`). -/
def pt (a b : ℚ) : Landmark := ⟨a, b, 0⟩

/-- Concrete full skeleton classifying as "5": four fingers extended, thumb
away from the index MCP, palm size 0.1 (non-degenerate). -/
def hand5 : List Landmark :=
  [pt 0 0, pt 0 0, pt (2/100) (2/100), pt (3/100) (3/100), pt (-1/5) 0,
   pt (-1/20) (1/10), pt (-1/20) (1/5), pt (-1/20) (3/10), pt (-1/20) (7/20),
   pt 0 (1/10), pt 0 (1/5), pt 0 (3/10), pt 0 (7/20),
   pt (1/20) (1/10), pt (1/20) (1/5), pt (1/20) (3/10), pt (1/20) (7/20),
   pt (1/10) (1/10), pt (1/10) (1/5), pt (1/10) (3/10), pt (1/10) (8/25)]

/-- Concrete full skeleton with a degenerate palm (palm size 0.005 ≤ 0.01, so
the floor scale 0.1 is substituted): all four fingers curled, index curled
halfway, thumb tip 0.03 from the index tip - classifying as "O". -/
def handD : List Landmark :=
  [pt 0 0, pt 0 0, pt (1/100) (1/100), pt (2/100) (1/100), pt (1/10) 0,
   pt 0 (1/100), pt (1/5) 0, pt 0 0, pt (13/100) 0,
   pt (1/200) 0, pt (3/10) 0, pt 0 0, pt (1/5) 0,
   pt (1/250) 0, pt (3/10) (1/10), pt 0 0, pt (1/5) (1/10),
   pt (3/1000) 0, pt (1/4) 0, pt 0 0, pt (1/5) 0]

/-! k-nearest-neighbor classifier (page.tsx 384-422). -/

/-- Exact rational floor square root: for `q = n/d` in lowest terms,
`⌊√(n·d)⌋ / d`.  It embeds the `Math.sqrt` the source stores in neighbor
distances: it agrees with the real square root on perfect squares (which
covers every concrete input evaluated in this file), is nonnegative, and
maps 0 to 0 - the only facts about stored roots used below (comparator
order and weight positivity are already determined by them). -/
def ratSqrt (q : ℚ) : ℚ := (Nat.sqrt (q.num.toNat * q.den) : ℚ) / (q.den : ℚ)

/-- TrainingSample (page.tsx line 15). -/
structure TrainingSample where
  label : String
  vector : List ℚ
deriving DecidableEq, Repr

/-- `calculateEuclideanDistance` (page.tsx 385-390): mismatched lengths give
`Infinity`, modeled as `none`; otherwise the square root of the sum of
squared coordinate differences. -/
def calculateEuclideanDistance (v1 v2 : List ℚ) : Option ℚ :=
  if v1.length ≠ v2.length then none
  else some (ratSqrt ((List.zipWith (fun a b => (a - b) ^ 2) v1 v2).sum))

/-- `K = 5` (page.tsx line 392). -/
def K : ℕ := 5

/-- Strict "closer" order used by the sort comparator
`(a, b) => a.distance - b.distance` (page.tsx line 400): a finite distance
is before a larger finite one and before `Infinity`; `Infinity` against
`Infinity` gives NaN, which `Array.prototype.sort` treats as 0 (a tie). -/
def distLt : Option ℚ → Option ℚ → Bool
  | none, _ => false
  | some _, none => true
  | some a, some b => decide (a < b)

/-- Non-strict version of `distLt` (the comparator's "does not come after"). -/
def distLe : Option ℚ → Option ℚ → Bool
  | _, none => true
  | none, some _ => false
  | some a, some b => decide (a ≤ b)

/-- One entry of the `distances` array (page.tsx 396-399). -/
structure Neighbor where
  label : String
  distance : Option ℚ
deriving DecidableEq, Repr

/-- Stable insertion into a list sorted by distance: the element passes every
strictly closer entry and stops before the first entry not strictly closer,
so equal distances keep their original order. -/
def insertNeighbor (n : Neighbor) : List Neighbor → List Neighbor
  | [] => [n]
  | m :: ms => if distLt m.distance n.distance then m :: insertNeighbor n ms
               else n :: m :: ms

/-- The sort of page.tsx line 400.  ECMA-262 requires `Array.prototype.sort`
to be stable and consistent with the comparator, which (NaN ↦ 0 included)
induces the total preorder `distLe`; any stable sort realizes the unique
such reordering, here a stable insertion sort. -/
def sortByDist : List Neighbor → List Neighbor
  | [] => []
  | n :: ns => insertNeighbor n (sortByDist ns)

/-- Numeric value of a digit string. -/
def digitsVal (cs : List Char) : ℕ := cs.foldl (fun n c => 10 * n + (c.toNat - 48)) 0

/-- Canonical-array-index test of ECMA-262 property keys: a non-empty digit
string without a leading zero (except "0") whose value is below 2³² − 1.
Such keys (the digit labels "1".."5") are enumerated by `Object.keys` before
all other string keys. -/
def isIdxKey (s : String) : Bool :=
  let cs := s.data
  !cs.isEmpty && cs.all (fun c => 48 ≤ c.toNat && c.toNat ≤ 57) &&
    !(decide (1 < cs.length) && (cs.headD ' ' == '0')) &&
    decide (digitsVal cs < 4294967295)

/-- First-occurrence (insertion) order of the distinct labels in a list; the
key set of a JS object built by inserting them in order. -/
def firstOccurrences (ls : List String) : List String :=
  ls.foldl (fun acc g => if g ∈ acc then acc else acc ++ [g]) []

/-- Stable insertion by numeric key value. -/
def insertByVal (s : String) : List String → List String
  | [] => [s]
  | t :: ts => if digitsVal s.data ≤ digitsVal t.data then s :: t :: ts
               else t :: insertByVal s ts

/-- Ascending numeric sort of canonical-array-index keys. -/
def sortIdxKeys : List String → List String
  | [] => []
  | s :: ss => insertByVal s (sortIdxKeys ss)

/-- `Object.keys` enumeration order for an object whose keys were inserted in
the order they occur in `ls`: canonical array-index keys in ascending
numeric order first, then the remaining string keys in insertion order
(ECMA-262 OrdinaryOwnPropertyKeys). -/
def jsKeys (ls : List String) : List String :=
  let occ := firstOccurrences ls
  sortIdxKeys (occ.filter isIdxKey) ++ occ.filter (fun s => !isIdxKey s)

/-- Voting weight `1 / (distance + 0.0001)` (page.tsx line 405); JS
`1 / Infinity = 0` for a mismatched-length sample. -/
def nWeight : Option ℚ → ℚ
  | none => 0
  | some d => 1 / (d + 1 / 10000)

/-- Accumulated weight of one label (`votes[label].weight` after the forEach
of page.tsx 404-410; the unused `count` field is not modeled). -/
def voteWeight (ns : List Neighbor) (lbl : String) : ℚ :=
  ((ns.filter (fun n => n.label == lbl)).map (fun n => nWeight n.distance)).sum

/-- `totalWeight` accumulated over the neighbors (page.tsx 403-410). -/
def totalNWeight (ns : List Neighbor) : ℚ :=
  (ns.map (fun n => nWeight n.distance)).sum

/-- The winner scan of page.tsx 411-418: iterate over `Object.keys(votes)`
tracking the maximal accumulated weight; `maxWeight` starts at `-Infinity`,
so the first key always takes over (every weight is a number), and later
keys only on a strictly greater weight. -/
def findWinner (ns : List Neighbor) : Option (String × ℚ) :=
  (jsKeys (ns.map Neighbor.label)).foldl
    (fun acc lbl =>
      match acc with
      | none => some (lbl, voteWeight ns lbl)
      | some (w, mw) =>
        if voteWeight ns lbl > mw then some (lbl, voteWeight ns lbl) else some (w, mw))
    none

/-- The `distances` array of `predictKNN` (page.tsx 396-399). -/
def knnDistances (inputVector : List ℚ) (trainingData : List TrainingSample) :
    List Neighbor :=
  trainingData.map fun sample =>
    Neighbor.mk sample.label (calculateEuclideanDistance inputVector sample.vector)

/-- The `neighbors` slice of `predictKNN` (page.tsx 400-401): the sorted
distances cut at `Math.min(K, trainingData.length)`. -/
def knnNeighbors (inputVector : List ℚ) (trainingData : List TrainingSample) :
    List Neighbor :=
  (sortByDist (knnDistances inputVector trainingData)).take (min K trainingData.length)

/-- `predictKNN` (page.tsx 394-422).  The guard `if (!winner) return null`
(line 419) tests JS falsiness: it fires both when the winner scan never ran
(no keys, modeled by `findWinner` returning `none`) and when the winning
label is the empty string `""`, which is falsy in JS - so a training set
whose winning label is `""` also yields `null`. -/
def predictKNN (inputVector : List ℚ) (trainingData : List TrainingSample) :
    Option (String × ℚ) :=
  if trainingData.length = 0 ∨ inputVector.length = 0 then none
  else
    let neighbors := knnNeighbors inputVector trainingData
    match findWinner neighbors with
    | none => none
    | some (winner, maxWeight) =>
      if winner = "" then none
      else
        let confidence := if totalNWeight neighbors > 0 then
            maxWeight / totalNWeight neighbors
          else 0
        some (winner, min (confidence * 100) 100)

/-! Per-frame prediction pipeline and stabilizer (page.tsx 626-789 and the
frame handler 1168-1208).  The mutable refs and React state of
`usePredictionModel` are threaded as one explicit record; frames are
processed strictly in order (spec §5), so each call reads the state left by
the previous one.  The `debugStatus` UI string is not modeled. -/

/-- `modelType` (page.tsx 627): "none" | "geometric" | "ml". -/
inductive ModelType
  | noModel
  | geometric
  | ml
deriving DecidableEq, Repr

/-- The engine state: refs `trainingDataRef`, `bufferRef`,
`lastSuccessfulDetectionTime`, `prevIndexPos`, `motionBuffer` and React
state `modelType`, `detectedLabel`, `confidence`, `isLocked`,
`verificationProgress` (page.tsx 626-646). -/
structure PredState where
  modelType : ModelType
  detectedLabel : String
  confidence : ℤ
  isLocked : Bool
  buffer : List String
  lastSuccessfulDetectionTime : ℚ
  prevIndexPos : Option (ℚ × ℚ)
  motionBuffer : List ℚ
  verificationProgress : ℤ
  trainingData : List TrainingSample
deriving DecidableEq, Repr

/-- Initial hook state (page.tsx 627-646). -/
def initState : PredState :=
  { modelType := .geometric
    detectedLabel := ""
    confidence := 0
    isLocked := false
    buffer := []
    lastSuccessfulDetectionTime := 0
    prevIndexPos := none
    motionBuffer := []
    verificationProgress := 0
    trainingData := [] }

/-- `PREDICTION_BUFFER_SIZE = 30` (page.tsx 645). -/
def PREDICTION_BUFFER_SIZE : ℕ := 30

/-- `SCAN_DELAY_MS = 600` (page.tsx 646). -/
def SCAN_DELAY_MS : ℚ := 600

/-- `REQUIRED_FRAMES = 25` (page.tsx 757). -/
def REQUIRED_FRAMES : ℕ := 25

/-- `Math.round`: round half away from zero on nonnegatives, i.e.
`⌊x + 1/2⌋` for the nonnegative values arising here. -/
def jsRound (q : ℚ) : ℤ := ⌊q + 1 / 2⌋

/-- `bestCandidate` (page.tsx 745): reduce over `Object.keys(counts)` with
initial accumulator "".  Reading `counts[""]` when "" is not a key yields JS
`undefined`, and `undefined > n` is false - the same outcome as comparing
its count 0 against a key's count ≥ 1, so counts are read back as
`buf.count`. -/
def bestCandidate (buf : List String) : String :=
  (jsKeys buf).foldl (fun a b => if buf.count a > buf.count b then a else b) ""

/-- The sliding-window push of page.tsx 732-736: append the candidate and
evict the oldest entry once the window exceeds `PREDICTION_BUFFER_SIZE`. -/
def pushEvict (buffer : List String) (r : String) : List String :=
  let buf0 := buffer ++ [r]
  if buf0.length > PREDICTION_BUFFER_SIZE then buf0.tail else buf0

/-- Stabilization phase of `predict` (page.tsx 724-770): candidate-less
frames shrink the buffer by one; a candidate is pushed into the sliding
window; below 5 entries no output is produced; otherwise the modal label's
frequency is blended with the raw confidence, progress is computed, and the
strict lock threshold may return the candidate, recording the lock time
when the label changes. -/
def stabilize (s : PredState) (now : ℚ) (rawResult : Option String)
    (rawConfidence : ℚ) : Option String × PredState :=
  match rawResult with
  | none => (none, {s with buffer := s.buffer.tail})
  | some r =>
    let buf := pushEvict s.buffer r
    if buf.length < 5 then (none, {s with buffer := buf})
    else
      let best := bestCandidate buf
      let frequency := buf.count best
      let consistency : ℚ := (frequency : ℚ) / (buf.length : ℚ)
      let finalConfidence := jsRound (rawConfidence * (4/10) + consistency * 100 * (6/10))
      let progress := min 100 (jsRound ((frequency : ℚ) / (REQUIRED_FRAMES : ℚ) * 100))
      let s2 := {s with buffer := buf, confidence := finalConfidence,
                        verificationProgress := progress}
      if REQUIRED_FRAMES ≤ frequency ∧ finalConfidence > 75 then
        if best ≠ s.detectedLabel then
          (some best, {s2 with lastSuccessfulDetectionTime := now})
        else (some best, s2)
      else (none, s2)

/-- `reduce((a, b) => a + b, 0) / length` (page.tsx 697). -/
def avgOf (l : List ℚ) : ℚ := l.foldl (· + ·) 0 / (l.length : ℚ)

/-- Z-motion logic of the geometric branch (page.tsx 688-707): on a "1"/"D"
candidate with a previous index position, the index-fingertip velocity
(`Math.sqrt(dx²+dy²)`, embedded via `ratSqrt`) is pushed into the 5-entry
motion buffer; an average above 0.04 overrides the candidate with "Z" at
confidence 95.  On any other candidate the motion buffer is cleared and the
previous index position left as is. -/
def motionPhase (s : PredState) (lm : List Landmark) (raw : Option String) :
    Option String × ℚ × PredState :=
  let rawConfidence : ℚ := if raw.isSome then 90 else 0
  if raw = some "1" ∨ raw = some "D" then
    let indexTip := lmAt lm 8
    match s.prevIndexPos with
    | some (px, py) =>
      let dx := |indexTip.x - px|
      let dy := |indexTip.y - py|
      let velocity := ratSqrt (dx * dx + dy * dy)
      let mb0 := s.motionBuffer ++ [velocity]
      let mb := if mb0.length > 5 then mb0.tail else mb0
      let s1 := {s with motionBuffer := mb, prevIndexPos := some (indexTip.x, indexTip.y)}
      if avgOf mb > 4 / 100 then (some "Z", 95, s1) else (raw, rawConfidence, s1)
    | none => (raw, rawConfidence, {s with prevIndexPos := some (indexTip.x, indexTip.y)})
  else (raw, rawConfidence, {s with motionBuffer := []})

/-- Wrist-relative flattening of the ml branch (page.tsx 710-713). -/
def normalizeLandmarks (lm : List Landmark) : List ℚ :=
  let wrist := lmAt lm 0
  lm.flatMap (fun p => [p.x - wrist.x, p.y - wrist.y, p.z - wrist.z])

/-- Result of one `predict` call: a normal return, or a propagated JS
exception (only possible in geometric mode on a malformed non-empty frame;
see `recognizeGeometricGesture`), carrying the state as mutated before the
throw. -/
inductive StepResult
  | ok (result : Option String) (s : PredState)
  | thrown (s : PredState)
deriving DecidableEq, Repr

/-- One call of `predict` (page.tsx 662-771).  Hand loss or model "none"
resets label, confidence, lock and sliding window; within `SCAN_DELAY_MS`
of the last lock the held label is returned untouched; otherwise the raw
prediction phase (geometric with Z-motion override, or KNN when at least
`K` samples are trained) feeds the stabilization phase. -/
def predictStep (s : PredState) (now : ℚ) (rawLandmarks : List Landmark) : StepResult :=
  if s.modelType = .noModel ∨ rawLandmarks.length = 0 then
    .ok none {s with confidence := 0, isLocked := false, buffer := [], detectedLabel := ""}
  else if now - s.lastSuccessfulDetectionTime < SCAN_DELAY_MS then
    .ok (some s.detectedLabel) {s with isLocked := true}
  else
    let s0 := {s with isLocked := false}
    if s.modelType = .geometric then
      match recognizeGeometricGesture rawLandmarks with
      | .error _ => .thrown s0
      | .ok raw =>
        let m := motionPhase s0 rawLandmarks raw
        let st := stabilize m.2.2 now m.1 m.2.1
        .ok st.1 st.2
    else if s.modelType = .ml then
      if K ≤ s.trainingData.length then
        match predictKNN (normalizeLandmarks rawLandmarks) s.trainingData with
        | some (lbl, conf) =>
          let st := stabilize s0 now (some lbl) conf
          .ok st.1 st.2
        | none =>
          let st := stabilize s0 now none 0
          .ok st.1 st.2
      else
        let st := stabilize s0 now none 0
        .ok st.1 st.2
    else
      let st := stabilize s0 now none 0
      .ok st.1 st.2

/-- One frame of `handleFrame` (page.tsx 1168-1202): run `predict`; a truthy
result differing from the held label updates the held label.  A throw is
caught by the frame loop's try/catch (page.tsx 502-517), leaving the
partially mutated state. -/
def handleFrame (s : PredState) (now : ℚ) (rawLandmarks : List Landmark) : PredState :=
  match predictStep s now rawLandmarks with
  | .thrown s1 => s1
  | .ok r s1 =>
    match r with
    | some lbl =>
      if lbl ≠ "" ∧ lbl ≠ s.detectedLabel then {s1 with detectedLabel := lbl} else s1
    | none => s1

/-- A full run from the initial hook state over timestamped frames. -/
def runFrames (frames : List (ℚ × List Landmark)) : PredState :=
  frames.foldl (fun s f => handleFrame s f.1 f.2) initState

/-- The engine state carried by a step result (after a caught throw, the
partially mutated state). -/
def StepResult.state : StepResult → PredState
  | .ok _ s => s
  | .thrown s => s

/-- The two buffer bounds of claim C9. -/
def BufferBounds (s : PredState) : Prop :=
  s.buffer.length ≤ PREDICTION_BUFFER_SIZE ∧ s.motionBuffer.length ≤ 5

/-- Concrete full skeleton classifying as "1": only the index finger
extended, thumb not extended, thumb tip away from the middle fingertip. -/
def hand1 : List Landmark :=
  [pt 0 0, pt 0 0, pt (2/100) (2/100), pt (3/100) (3/100), pt (4/100) (4/100),
   pt (-1/20) (1/10), pt (-1/20) (1/5), pt (-1/20) (3/10), pt (-1/20) (2/5),
   pt 0 (1/10), pt 0 (1/5), pt 0 (17/100), pt 0 (3/20),
   pt (1/20) (1/10), pt (1/20) (1/5), pt (1/20) (17/100), pt (1/20) (3/20),
   pt (1/10) (1/10), pt (1/10) (1/5), pt (1/10) (17/100), pt (1/10) (3/20)]

/-- Training samples for the neighbor-classifier theorems. -/
def sampA : TrainingSample := ⟨"A", [0, 0, 0]⟩

def sampB : TrainingSample := ⟨"B", [0, 0, 0]⟩

/-- A sample whose vector length 1 mismatches every query of length 2. -/
def sampQ : TrainingSample := ⟨"Q", [7]⟩

/-- A "B" sample at distance 3 from the origin query. -/
def sampB3 : TrainingSample := ⟨"B", [3, 0, 0]⟩

/-- A sample of vector length 2, matching a query of length 2. -/
def sampP : TrainingSample := ⟨"P", [1, 1]⟩

/-- Six samples tied at distance 0 from the origin query, majority "A"
among the first five. -/
def s5A : List TrainingSample := [sampA, sampA, sampA, sampB, sampB, sampB]

/-- The same six samples reordered: majority "B" among the first five. -/
def s5B : List TrainingSample := [sampB, sampB, sampB, sampA, sampA, sampA]

/-- A state locked on "B" with lock timestamp 10000 ms. -/
def lockedState : PredState :=
  { initState with detectedLabel := "B", lastSuccessfulDetectionTime := 10000 }

/-- Neighbor mode with a single trained sample (below K = 5). -/
def mlSmallState : PredState :=
  { initState with modelType := ModelType.ml, trainingData := [sampA] }

/-- Six frames of the "5" hand, 1000 ms apart. -/
def c3frames : List (ℚ × List Landmark) :=
  [(1000, hand5), (2000, hand5), (3000, hand5), (4000, hand5), (5000, hand5),
   (6000, hand5)]

/-- Two frames of the "1" hand (the second one pushes velocity 0 into the
motion buffer), then a hand-loss frame. -/
def c4frames : List (ℚ × List Landmark) :=
  [(1000, hand1), (2000, hand1), (3000, [])]

/-- Engine states reached along `c3frames`: only the sliding window,
confidence and progress evolve. -/
def c3state (buffer : List String) (conf prog : ℤ) : PredState :=
  { modelType := ModelType.geometric, detectedLabel := "", confidence := conf,
    isLocked := false, buffer := buffer, lastSuccessfulDetectionTime := 0,
    prevIndexPos := none, motionBuffer := [], verificationProgress := prog,
    trainingData := [] }

/-- A state whose sliding window holds five "5" entries. -/
def c3wState : PredState := c3state ["5", "5", "5", "5", "5"] 0 0

/-- Engine state after the first `c4frames` frame. -/
def c4s1 : PredState :=
  { modelType := ModelType.geometric, detectedLabel := "", confidence := 0,
    isLocked := false, buffer := ["1"], lastSuccessfulDetectionTime := 0,
    prevIndexPos := some (-1/20, 2/5), motionBuffer := [],
    verificationProgress := 0, trainingData := [] }

/-- Engine state after the second `c4frames` frame: one velocity sample. -/
def c4s2 : PredState :=
  { modelType := ModelType.geometric, detectedLabel := "", confidence := 0,
    isLocked := false, buffer := ["1", "1"], lastSuccessfulDetectionTime := 0,
    prevIndexPos := some (-1/20, 2/5), motionBuffer := [0],
    verificationProgress := 0, trainingData := [] }

/-- Engine state after the hand-loss frame: window cleared, motion buffer
still holding its sample. -/
def c4s3 : PredState :=
  { modelType := ModelType.geometric, detectedLabel := "", confidence := 0,
    isLocked := false, buffer := [], lastSuccessfulDetectionTime := 0,
    prevIndexPos := some (-1/20, 2/5), motionBuffer := [0],
    verificationProgress := 0, trainingData := [] }

end Gamay

namespace Gamay

/-! Helper lemmas about the geometric classifier. -/

theorem lmAt_scaleAbout (k : ℚ) (l : List Landmark) (i : ℕ) :
    lmAt (scaleAbout k l) i =
      if i < l.length then scalePt k (lmAt l 0) (lmAt l i) else default := by
  by_cases h : i < l.length
  · simp [lmAt, scaleAbout, List.getD_eq_getElem?_getD, List.getElem?_map,
      List.getElem?_eq_getElem h, h]
  · simp [lmAt, scaleAbout, List.getD_eq_getElem?_getD, List.getElem?_map, h,
      List.getElem?_eq_none (le_of_not_lt h)]

theorem dsq_scalePt (k : ℚ) (w p q : Landmark) :
    dsq (scalePt k w p) (scalePt k w q) = k ^ 2 * dsq p q := by
  simp only [dsq, scalePt]
  ring

theorem ndsq_scalePt (k : ℚ) (hk : k ≠ 0) (w p q : Landmark) (s : ℚ) :
    ndsq (scalePt k w p) (scalePt k w q) (k ^ 2 * s) = ndsq p q s := by
  simp only [ndsq, dsq_scalePt]
  exact mul_div_mul_left _ _ (pow_ne_zero 2 hk)

theorem scalePt_x_lt (k : ℚ) (hk : 0 < k) (w p q : Landmark) :
    (scalePt k w p).x < (scalePt k w q).x ↔ p.x < q.x := by
  simp only [scalePt]
  rw [add_lt_add_iff_left, mul_lt_mul_left hk, sub_lt_sub_iff_right]

theorem scalePt_y_lt (k : ℚ) (hk : 0 < k) (w p q : Landmark) :
    (scalePt k w p).y < (scalePt k w q).y ↔ p.y < q.y := by
  simp only [scalePt]
  rw [add_lt_add_iff_left, mul_lt_mul_left hk, sub_lt_sub_iff_right]

theorem palmSizeSq_scaleAbout (k : ℚ) (l : List Landmark) (hl : l.length = 21) :
    palmSizeSq (scaleAbout k l) = k ^ 2 * palmSizeSq l := by
  rw [palmSizeSq, palmSizeSq, lmAt_scaleAbout, lmAt_scaleAbout, hl]
  norm_num [dsq_scalePt]

theorem scaleSq_scaleAbout (k : ℚ) (l : List Landmark) (hl : l.length = 21)
    (hpalm : 1 / 10000 < palmSizeSq l) (hpalm2 : 1 / 10000 < k ^ 2 * palmSizeSq l) :
    scaleSq (scaleAbout k l) = k ^ 2 * scaleSq l := by
  rw [scaleSq, scaleSq, palmSizeSq_scaleAbout k l hl, if_pos hpalm2, if_pos hpalm]

theorem getFingerState_scaleAbout (k : ℚ) (l : List Landmark) (hl : l.length = 21)
    (hk0 : k ≠ 0) (s : ℚ) (f : Finger) :
    getFingerState (scaleAbout k l) f (k ^ 2 * s) = getFingerState l f s := by
  cases f <;>
    simp only [getFingerState, Finger.idx, lmAt_scaleAbout, hl] <;>
    norm_num [ndsq_scalePt k hk0]

theorem isThumbExtended_scaleAbout (k : ℚ) (l : List Landmark) (hl : l.length = 21)
    (hk0 : k ≠ 0) (s : ℚ) :
    isThumbExtended (scaleAbout k l) (k ^ 2 * s) = isThumbExtended l s := by
  simp only [isThumbExtended, lmAt_scaleAbout, hl]
  norm_num [ndsq_scalePt k hk0]

theorem measure_scaleAbout (k : ℚ) (l : List Landmark) (hl : l.length = 21)
    (hk : 0 < k) (hpalm : 1 / 10000 < palmSizeSq l)
    (hpalm2 : 1 / 10000 < k ^ 2 * palmSizeSq l) :
    measure (scaleAbout k l) = measure l := by
  have hk0 : k ≠ 0 := ne_of_gt hk
  simp only [measure, scaleSq_scaleAbout k l hl hpalm hpalm2,
    getFingerState_scaleAbout k l hl hk0, isThumbExtended_scaleAbout k l hl hk0,
    lmAt_scaleAbout, hl]
  norm_num [ndsq_scalePt k hk0, GeoMeas.mk.injEq, decide_eq_decide, gt_iff_lt,
    scalePt_x_lt k hk, scalePt_y_lt k hk]

theorem geoDecide_closed_fist (m : GeoMeas) (h1 : m.indExt = false)
    (h2 : m.midExt = false) (h3 : m.rinExt = false) (h4 : m.pinExt = false) :
    ∃ s, geoDecide m = some s ∧
      s ∈ (["O", "C", "X", "S", "T", "E", "M", "N", "A"] : List String) := by
  simp only [geoDecide, extendedCount, h1, h2, h3, h4]
  norm_num
  split_ifs <;> refine ⟨_, rfl, by decide⟩

/-- C1: the geometric classifier does NOT recover locally on every array: it
returns `null` for the empty array but THROWS for non-empty arrays shorter
than 21 (undefined landmark access), so the claim fails at a single-landmark
array.  This counterexample evaluates the classifier there. -/
theorem c1_short_array_throws :
    recognizeGeometricGesture [pt 0 0] = .error () := by
  simp [recognizeGeometricGesture]

/-- C1 (amended): the geometric classifier propagates a failure (a JS
TypeError from an undefined landmark access) precisely on the non-empty
landmark arrays with fewer than 21 entries; for the empty array and for
arrays of at least 21 landmarks it returns a candidate or none without
failing. -/
theorem c1_failure_characterization (l : List Landmark) :
    recognizeGeometricGesture l = .error () ↔ l.length ≠ 0 ∧ l.length < 21 := by
  rw [recognizeGeometricGesture]
  split_ifs with h1 h2 <;> simp_all

/-- C2: scale invariance FAILS in the degenerate-scale regime the claim
includes.  `handD` has palm size 0.005 ≤ 0.01, so the floor scale 0.1 is
substituted; scaling by k = 2 (inside [0.5, 2]) doubles all distances while
the floor stays fixed, moving the thumb-index distance across the O/C
threshold: the classifier answers "O" before and "C" after. -/
theorem c2_degenerate_scale_cex :
    ((1 : ℚ) / 2 ≤ 2 ∧ (2 : ℚ) ≤ 2) ∧
      recognizeGeometricGesture (scaleAbout 2 handD) ≠ recognizeGeometricGesture handD := by
  refine ⟨by norm_num, ?_⟩
  have h1 : recognizeGeometricGesture handD = .ok (some "O") := by
    norm_num [recognizeGeometricGesture, geoCore, geoDecide, measure, extendedCount,
      getFingerState, isThumbExtended, ndsq, dsq, scaleSq, palmSizeSq, lmAt,
      Finger.idx, handD, pt]
  have h2 : recognizeGeometricGesture (scaleAbout 2 handD) = .ok (some "C") := by
    norm_num [recognizeGeometricGesture, geoCore, geoDecide, measure, extendedCount,
      getFingerState, isThumbExtended, ndsq, dsq, scaleSq, palmSizeSq, lmAt,
      Finger.idx, handD, pt, scaleAbout, scalePt]
  rw [h1, h2]
  simp

/-- C2 (amended): for every 21-landmark array and factor k ∈ [0.5, 2],
scaling all landmarks about the wrist leaves the geometric classification
unchanged PROVIDED neither the original nor the scaled wrist-to-middle-MCP
palm size falls at or below the degenerate floor threshold 0.01 (squared:
1/10000); in the degenerate regime the substituted floor constant breaks
exact invariance. -/
theorem c2_scale_invariance (l : List Landmark) (k : ℚ) (hl : l.length = 21)
    (hk1 : 1 / 2 ≤ k) (_hk2 : k ≤ 2) (hpalm : 1 / 10000 < palmSizeSq l)
    (hpalm2 : 1 / 10000 < k ^ 2 * palmSizeSq l) :
    recognizeGeometricGesture (scaleAbout k l) = recognizeGeometricGesture l := by
  have hk : 0 < k := lt_of_lt_of_le (by norm_num) hk1
  have hlen : (scaleAbout k l).length = 21 := by simp [scaleAbout, hl]
  rw [recognizeGeometricGesture, recognizeGeometricGesture]
  simp only [hlen, hl]
  norm_num [geoCore, measure_scaleAbout k l hl hk hpalm hpalm2]

/-- Witness for `c2_scale_invariance`: `hand5` with k = 2 satisfies every
hypothesis, and the scaled hand classifies identically. -/
theorem c2_scale_invariance_witness :
    hand5.length = 21 ∧ (1 : ℚ) / 2 ≤ 2 ∧ (2 : ℚ) ≤ 2 ∧
      1 / 10000 < palmSizeSq hand5 ∧ 1 / 10000 < (2 : ℚ) ^ 2 * palmSizeSq hand5 ∧
      recognizeGeometricGesture (scaleAbout 2 hand5) = recognizeGeometricGesture hand5 := by
  have hp : (1 : ℚ) / 10000 < palmSizeSq hand5 := by
    norm_num [palmSizeSq, lmAt, dsq, hand5, pt]
  have hp2 : (1 : ℚ) / 10000 < (2 : ℚ) ^ 2 * palmSizeSq hand5 := by
    norm_num [palmSizeSq, lmAt, dsq, hand5, pt]
  exact ⟨rfl, by norm_num, by norm_num, hp, hp2,
    c2_scale_invariance hand5 2 rfl (by norm_num) (by norm_num) hp hp2⟩

/-- C10: whenever all four non-thumb finger extension tests are false, the
hierarchical classifier always produces a candidate, one of O, C, X, S, T,
E, M, N or A (A being the final fallback); so a candidate-less frame
requires at least one extended non-thumb finger. -/
theorem c10_closed_fist_total (l : List Landmark) (hl : l.length = 21)
    (h1 : getFingerState l .index (scaleSq l) = false)
    (h2 : getFingerState l .middle (scaleSq l) = false)
    (h3 : getFingerState l .ring (scaleSq l) = false)
    (h4 : getFingerState l .pinky (scaleSq l) = false) :
    ∃ s, recognizeGeometricGesture l = .ok (some s) ∧
      s ∈ (["O", "C", "X", "S", "T", "E", "M", "N", "A"] : List String) := by
  obtain ⟨s, hs, hmem⟩ := geoDecide_closed_fist (measure l)
    (by simp [measure, h1]) (by simp [measure, h2]) (by simp [measure, h3])
    (by simp [measure, h4])
  refine ⟨s, ?_, hmem⟩
  have hok : recognizeGeometricGesture l = .ok (geoCore l) := by
    rw [recognizeGeometricGesture]
    simp [hl]
  rw [hok, geoCore, hs]

/-- Witness for `c10_closed_fist_total`: `handD` has all four extension tests
false and indeed classifies as "O", a member of the closed-fist family. -/
theorem c10_closed_fist_witness :
    getFingerState handD .index (scaleSq handD) = false ∧
      getFingerState handD .middle (scaleSq handD) = false ∧
      getFingerState handD .ring (scaleSq handD) = false ∧
      getFingerState handD .pinky (scaleSq handD) = false ∧
      (∃ s, recognizeGeometricGesture handD = .ok (some s) ∧
        s ∈ (["O", "C", "X", "S", "T", "E", "M", "N", "A"] : List String)) := by
  have h1 : getFingerState handD .index (scaleSq handD) = false := by
    norm_num [getFingerState, Finger.idx, ndsq, dsq, scaleSq, palmSizeSq, lmAt, handD, pt]
  have h2 : getFingerState handD .middle (scaleSq handD) = false := by
    norm_num [getFingerState, Finger.idx, ndsq, dsq, scaleSq, palmSizeSq, lmAt, handD, pt]
  have h3 : getFingerState handD .ring (scaleSq handD) = false := by
    norm_num [getFingerState, Finger.idx, ndsq, dsq, scaleSq, palmSizeSq, lmAt, handD, pt]
  have h4 : getFingerState handD .pinky (scaleSq handD) = false := by
    norm_num [getFingerState, Finger.idx, ndsq, dsq, scaleSq, palmSizeSq, lmAt, handD, pt]
  exact ⟨h1, h2, h3, h4, c10_closed_fist_total handD rfl h1 h2 h3 h4⟩

/-! Lemmas about the stabilizer step. -/

theorem pushEvict_length_le (buffer : List String) (r : String)
    (h : buffer.length ≤ PREDICTION_BUFFER_SIZE) :
    (pushEvict buffer r).length ≤ PREDICTION_BUFFER_SIZE := by
  simp only [pushEvict]
  split_ifs with hgt <;> simp_all

theorem stabilize_buffer (s : PredState) (now : ℚ) (raw : Option String) (conf : ℚ) :
    (stabilize s now raw conf).2.buffer =
      match raw with
      | none => s.buffer.tail
      | some r => pushEvict s.buffer r := by
  rcases raw with _ | r
  · rfl
  · simp only [stabilize]
    split_ifs <;> rfl

theorem stabilize_motionBuffer (s : PredState) (now : ℚ) (raw : Option String)
    (conf : ℚ) : (stabilize s now raw conf).2.motionBuffer = s.motionBuffer := by
  rcases raw with _ | r
  · rfl
  · simp only [stabilize]
    split_ifs <;> rfl

theorem motionPhase_buffer (s : PredState) (lm : List Landmark) (raw : Option String) :
    (motionPhase s lm raw).2.2.buffer = s.buffer := by
  rw [motionPhase]
  rcases hp : s.prevIndexPos with _ | ⟨px, py⟩ <;> simp only [hp] <;>
    split_ifs <;> rfl

theorem motionPhase_motionBuffer_le (s : PredState) (lm : List Landmark)
    (raw : Option String) (h : s.motionBuffer.length ≤ 5) :
    (motionPhase s lm raw).2.2.motionBuffer.length ≤ 5 := by
  rw [motionPhase]
  rcases hp : s.prevIndexPos with _ | ⟨px, py⟩ <;> simp only [hp] <;>
    split_ifs <;> simp_all [List.length_tail]

theorem tail_length_le (l : List String) (h : l.length ≤ PREDICTION_BUFFER_SIZE) :
    l.tail.length ≤ PREDICTION_BUFFER_SIZE := by
  rw [List.length_tail]
  omega

theorem stabilize_bounds (s : PredState) (now : ℚ) (raw : Option String) (conf : ℚ)
    (hb : s.buffer.length ≤ PREDICTION_BUFFER_SIZE) (hm : s.motionBuffer.length ≤ 5) :
    BufferBounds (stabilize s now raw conf).2 := by
  constructor
  · rw [stabilize_buffer]
    rcases raw with _ | r
    · exact tail_length_le _ hb
    · exact pushEvict_length_le _ _ hb
  · rw [stabilize_motionBuffer]
    exact hm

theorem predictStep_bounds (s : PredState) (now : ℚ) (lm : List Landmark)
    (h : BufferBounds s) : BufferBounds (predictStep s now lm).state := by
  obtain ⟨hb, hm⟩ := h
  rw [predictStep]
  split_ifs with h1 h2 h3 h4 h5
  · exact ⟨by simp [StepResult.state], by simpa [StepResult.state] using hm⟩
  · exact ⟨by simpa [StepResult.state] using hb, by simpa [StepResult.state] using hm⟩
  · rcases hg : recognizeGeometricGesture lm with e | raw
    · exact ⟨by simpa [StepResult.state] using hb, by simpa [StepResult.state] using hm⟩
    · exact stabilize_bounds _ now _ _
        (by rw [motionPhase_buffer]; exact hb)
        (motionPhase_motionBuffer_le _ _ _ hm)
  · rcases hk : predictKNN (normalizeLandmarks lm) s.trainingData with _ | ⟨lbl, conf⟩
    · exact stabilize_bounds _ now _ _ hb hm
    · exact stabilize_bounds _ now _ _ hb hm
  · exact stabilize_bounds _ now _ _ hb hm
  · exact stabilize_bounds _ now _ _ hb hm

theorem handleFrame_bounds (s : PredState) (now : ℚ) (lm : List Landmark)
    (h : BufferBounds s) : BufferBounds (handleFrame s now lm) := by
  have := predictStep_bounds s now lm h
  rw [handleFrame]
  rcases hs : predictStep s now lm with ⟨r, s1⟩ | s1
  · rw [hs] at this
    rcases r with _ | lbl
    · exact this
    · simp only
      split_ifs
      · exact ⟨this.1, this.2⟩
      · exact this
  · rw [hs] at this
    exact this

/-- C9: after every per-frame call, over every sequence of prior calls from
the initial state, the candidate sliding window holds at most 30 entries and
the motion-velocity buffer at most 5. -/
theorem c9_buffer_bounds (frames : List (ℚ × List Landmark)) :
    (runFrames frames).buffer.length ≤ 30 ∧ (runFrames frames).motionBuffer.length ≤ 5 := by
  have key : ∀ (fs : List (ℚ × List Landmark)) (s : PredState), BufferBounds s →
      BufferBounds (fs.foldl (fun s f => handleFrame s f.1 f.2) s) := by
    intro fs
    induction fs with
    | nil => intro s hs; exact hs
    | cons f fs ih =>
      intro s hs
      exact ih _ (handleFrame_bounds s f.1 f.2 hs)
  have h0 : BufferBounds initState := by
    constructor <;> simp [initState, PREDICTION_BUFFER_SIZE]
  exact key frames initState h0

/-- C4: feeding an empty landmark array resets label, confidence, lock and
the sliding window, but does NOT clear the motion-velocity buffer: after two
"1"-candidate frames the motion buffer holds one velocity sample, and the
hand-loss frame leaves it untouched while clearing the sliding window. -/
theorem c4_motion_survives_cex :
    (runFrames c4frames).motionBuffer = [0] ∧ (runFrames c4frames).buffer = [] ∧
      (runFrames c4frames).motionBuffer ≠ [] := by
  have hg : recognizeGeometricGesture hand1 = .ok (some "1") := by
    norm_num [recognizeGeometricGesture, geoCore, geoDecide, measure, extendedCount,
      getFingerState, isThumbExtended, ndsq, dsq, scaleSq, palmSizeSq, lmAt,
      Finger.idx, hand1, pt]
  have hlm8 : lmAt hand1 8 = pt (-1/20) (2/5) := by norm_num [lmAt, hand1]
  have hne : hand1 ≠ [] := by simp [hand1]
  have hmn : ModelType.geometric ≠ ModelType.noModel := by decide
  have e1 : handleFrame initState 1000 hand1 = c4s1 := by
    norm_num [handleFrame, predictStep, hg, hlm8, hne, hmn, motionPhase, stabilize,
      pushEvict, initState, c4s1, SCAN_DELAY_MS, PREDICTION_BUFFER_SIZE, pt]
  have e2 : handleFrame c4s1 2000 hand1 = c4s2 := by
    norm_num [handleFrame, predictStep, hg, hlm8, hne, hmn, motionPhase, stabilize,
      pushEvict, c4s1, c4s2, SCAN_DELAY_MS, PREDICTION_BUFFER_SIZE, pt, ratSqrt,
      avgOf]
  have e3 : handleFrame c4s2 3000 [] = c4s3 := by
    norm_num [handleFrame, predictStep, c4s2, c4s3]
  have h : runFrames c4frames = c4s3 := by
    rw [runFrames, c4frames]
    simp only [List.foldl_cons, List.foldl_nil]
    rw [e1, e2, e3]
  rw [h]
  exact ⟨rfl, rfl, by simp [c4s3]⟩

/-- C4 (amended): feeding an empty landmark array from any state clears the
candidate sliding window and resets the held label, confidence and lock, but
leaves the motion-velocity buffer and the previous index position (and the
lock timestamp) untouched; the next non-empty frame therefore starts window
accumulation from zero frequency while motion history persists. -/
theorem c4_idle_reset (s : PredState) (now : ℚ) :
    ∃ s1, predictStep s now [] = .ok none s1 ∧ s1.buffer = [] ∧
      s1.detectedLabel = "" ∧ s1.confidence = 0 ∧ s1.isLocked = false ∧
      s1.motionBuffer = s.motionBuffer ∧ s1.prevIndexPos = s.prevIndexPos ∧
      s1.lastSuccessfulDetectionTime = s.lastSuccessfulDetectionTime := by
  refine ⟨{s with confidence := 0, isLocked := false, buffer := [], detectedLabel := ""},
    ?_, rfl, rfl, rfl, rfl, rfl, rfl, rfl⟩
  simp [predictStep]

/-- C8: while `now − lastSuccessfulDetectionTime < SCAN_DELAY_MS`, a frame
carrying any landmarks is answered with the held label before any candidate
is even computed, and the held label cannot change. -/
theorem c8_hysteresis_hold (s : PredState) (now : ℚ) (lm : List Landmark)
    (hmode : s.modelType ≠ .noModel) (hlm : lm.length ≠ 0)
    (hdelay : now - s.lastSuccessfulDetectionTime < SCAN_DELAY_MS) :
    predictStep s now lm = .ok (some s.detectedLabel) {s with isLocked := true} ∧
      (handleFrame s now lm).detectedLabel = s.detectedLabel := by
  have h1 : predictStep s now lm = .ok (some s.detectedLabel) {s with isLocked := true} := by
    rw [predictStep, if_neg (by simp [hmode, hlm]), if_pos hdelay]
  refine ⟨h1, ?_⟩
  rw [handleFrame, h1]
  simp

/-- Witness for `c8_hysteresis_hold`: a state locked on "B" 300 ms ago keeps
answering "B" on a real frame. -/
theorem c8_hysteresis_hold_witness :
    lockedState.modelType ≠ ModelType.noModel ∧ hand1.length ≠ 0 ∧
      (10300 : ℚ) - lockedState.lastSuccessfulDetectionTime < SCAN_DELAY_MS ∧
      predictStep lockedState 10300 hand1 =
        .ok (some "B") { lockedState with isLocked := true } := by
  have hmode : lockedState.modelType ≠ ModelType.noModel := by
    simp [lockedState, initState]
  have hlm : hand1.length ≠ 0 := by simp [hand1]
  have hdelay : (10300 : ℚ) - lockedState.lastSuccessfulDetectionTime < SCAN_DELAY_MS := by
    norm_num [lockedState, initState, SCAN_DELAY_MS]
  exact ⟨hmode, hlm, hdelay,
    (c8_hysteresis_hold lockedState 10300 hand1 hmode hlm hdelay).1⟩

/-- C6: in neighbor mode with fewer than K = 5 trained samples, a frame that
reaches classification produces no candidate: the step returns none, nothing
is pushed (the window only shrinks), and neither confidence nor progress nor
the held label is updated. -/
theorem c6_insufficient_training (s : PredState) (now : ℚ) (lm : List Landmark)
    (hmode : s.modelType = .ml) (htd : s.trainingData.length < K) (hlm : lm.length ≠ 0)
    (hdelay : ¬(now - s.lastSuccessfulDetectionTime < SCAN_DELAY_MS)) :
    ∃ s1, predictStep s now lm = .ok none s1 ∧ s1.buffer = s.buffer.tail ∧
      s1.confidence = s.confidence ∧ s1.verificationProgress = s.verificationProgress ∧
      s1.detectedLabel = s.detectedLabel := by
  rw [predictStep, if_neg (by simp [hmode, hlm]), if_neg hdelay,
    if_neg (by simp [hmode]), if_pos hmode, if_neg (not_le.mpr htd)]
  exact ⟨_, rfl, rfl, rfl, rfl, rfl⟩

/-- Witness for `c6_insufficient_training`: ml mode with a single trained
sample yields no candidate on a real frame. -/
theorem c6_insufficient_training_witness :
    mlSmallState.modelType = ModelType.ml ∧ mlSmallState.trainingData.length < K ∧
      hand1.length ≠ 0 ∧
      ¬((1000 : ℚ) - mlSmallState.lastSuccessfulDetectionTime < SCAN_DELAY_MS) ∧
      ∃ s1, predictStep mlSmallState 1000 hand1 = .ok none s1 ∧ s1.buffer = [] := by
  have hmode : mlSmallState.modelType = ModelType.ml := rfl
  have htd : mlSmallState.trainingData.length < K := by
    simp [mlSmallState, initState, K]
  have hlm : hand1.length ≠ 0 := by simp [hand1]
  have hdelay : ¬((1000 : ℚ) - mlSmallState.lastSuccessfulDetectionTime <
      SCAN_DELAY_MS) := by
    norm_num [mlSmallState, initState, SCAN_DELAY_MS]
  obtain ⟨s1, h1, h2, _, _, _⟩ :=
    c6_insufficient_training mlSmallState 1000 hand1 hmode htd hlm hdelay
  exact ⟨hmode, htd, hlm, hdelay, s1, h1,
    by simpa [mlSmallState, initState] using h2⟩

/-! Modal-count and key-enumeration lemmas for the stabilizer. -/

theorem count_le_foldl_max (buf : List String) :
    ∀ (keys : List String) (a₀ lbl : String), lbl ∈ keys ∨ lbl = a₀ →
      buf.count lbl ≤
        buf.count (keys.foldl (fun a b => if buf.count a > buf.count b then a else b) a₀) := by
  intro keys
  induction keys with
  | nil =>
    rintro a₀ lbl (h | rfl)
    · simp at h
    · exact le_refl _
  | cons k ks ih =>
    rintro a₀ lbl hmem
    simp only [List.foldl_cons]
    set a₁ := if buf.count a₀ > buf.count k then a₀ else k with ha₁
    have h₀ : buf.count a₀ ≤ buf.count a₁ := by
      rw [ha₁]
      split_ifs with h
      · exact le_refl _
      · exact le_of_not_lt h
    have hk : buf.count k ≤ buf.count a₁ := by
      rw [ha₁]
      split_ifs with h
      · exact le_of_lt h
      · exact le_refl _
    have hrec := ih a₁ a₁ (Or.inr rfl)
    rcases hmem with hmem | rfl
    · rcases List.mem_cons.mp hmem with rfl | hmem
      · exact le_trans hk hrec
      · exact ih a₁ lbl (Or.inl hmem)
    · exact le_trans h₀ hrec

theorem mem_foldl_occ (ls : List String) :
    ∀ (acc : List String) (a : String), a ∈ acc ∨ a ∈ ls →
      a ∈ ls.foldl (fun acc g => if g ∈ acc then acc else acc ++ [g]) acc := by
  induction ls with
  | nil =>
    rintro acc a (h | h)
    · exact h
    · simp at h
  | cons b bs ih =>
    rintro acc a hmem
    simp only [List.foldl_cons]
    apply ih
    rcases hmem with h | h
    · left
      split_ifs <;> simp [h]
    · rcases List.mem_cons.mp h with rfl | h
      · left
        split_ifs with hb
        · exact hb
        · simp
      · right
        exact h

theorem mem_firstOccurrences {ls : List String} {a : String} (h : a ∈ ls) :
    a ∈ firstOccurrences ls :=
  mem_foldl_occ ls [] a (Or.inr h)

theorem mem_insertByVal {s t : String} {l : List String} :
    t ∈ insertByVal s l ↔ t = s ∨ t ∈ l := by
  induction l with
  | nil => simp [insertByVal]
  | cons x xs ih =>
    rw [insertByVal]
    split_ifs <;> simp [ih] <;> tauto

theorem mem_sortIdxKeys {t : String} {l : List String} : t ∈ sortIdxKeys l ↔ t ∈ l := by
  induction l with
  | nil => simp [sortIdxKeys]
  | cons x xs ih =>
    rw [sortIdxKeys, mem_insertByVal]
    simp [ih]

theorem mem_jsKeys {ls : List String} {a : String} (h : a ∈ ls) : a ∈ jsKeys ls := by
  have hocc : a ∈ firstOccurrences ls := mem_firstOccurrences h
  rw [jsKeys]
  by_cases hp : isIdxKey a
  · exact List.mem_append_left _ (mem_sortIdxKeys.mpr (List.mem_filter.mpr ⟨hocc, hp⟩))
  · refine List.mem_append_right _ (List.mem_filter.mpr ⟨hocc, ?_⟩)
    simp [hp]

theorem count_le_count_bestCandidate (buf : List String) (lbl : String) :
    buf.count lbl ≤ buf.count (bestCandidate buf) := by
  by_cases h : lbl ∈ buf
  · exact count_le_foldl_max buf (jsKeys buf) "" lbl (Or.inl (mem_jsKeys h))
  · rw [List.count_eq_zero.mpr h]
    exact Nat.zero_le _

/-- C3 (amended): on every accumulating step that pushes a candidate and
computes an output (at least 5 window entries after the push), the reported
confidence is `round(rawConfidence·0.4 + (frequency / CURRENT window length)
·100·0.6)` - the divisor is the live entry count, which equals the window
size 30 only once the window has filled - and verificationProgress is
`min(100, round(frequency / REQUIRED_FRAMES · 100))`, where frequency is the
count of the modal label of the window (third conjunct). -/
theorem c3_confidence_formula (s : PredState) (now : ℚ) (r : String) (conf : ℚ)
    (h5 : ¬((pushEvict s.buffer r).length < 5)) :
    (stabilize s now (some r) conf).2.confidence =
        jsRound (conf * (4/10) +
          ((pushEvict s.buffer r).count (bestCandidate (pushEvict s.buffer r)) : ℚ) /
            ((pushEvict s.buffer r).length : ℚ) * 100 * (6/10)) ∧
      (stabilize s now (some r) conf).2.verificationProgress =
        min 100 (jsRound
          (((pushEvict s.buffer r).count (bestCandidate (pushEvict s.buffer r)) : ℚ) /
            (REQUIRED_FRAMES : ℚ) * 100)) ∧
      ∀ lbl, (pushEvict s.buffer r).count lbl ≤
        (pushEvict s.buffer r).count (bestCandidate (pushEvict s.buffer r)) := by
  refine ⟨?_, ?_, fun lbl => count_le_count_bestCandidate _ lbl⟩ <;>
    · simp only [stabilize]
      rw [if_neg h5]
      split_ifs <;> rfl

/-- Witness for `c3_confidence_formula`: pushing a sixth "5" into a window of
five "5"s computes an output. -/
theorem c3_confidence_formula_witness :
    ¬((pushEvict c3wState.buffer "5").length < 5) ∧
      (stabilize c3wState 7000 (some "5") 90).2.confidence =
        jsRound (90 * (4/10) +
          ((pushEvict c3wState.buffer "5").count
              (bestCandidate (pushEvict c3wState.buffer "5")) : ℚ) /
            ((pushEvict c3wState.buffer "5").length : ℚ) * 100 * (6/10)) := by
  have h5 : ¬((pushEvict c3wState.buffer "5").length < 5) := by decide
  exact ⟨h5, (c3_confidence_formula c3wState 7000 "5" 90 h5).1⟩

/-- C3: the confidence actually reported divides the modal frequency by the
CURRENT buffer length, not by the window size 30: after six identical "5"
frames the engine reports confidence 96, whereas the claimed formula
`rawConfidence·0.4 + (frequency/windowSize)·100·0.6` gives
`90·0.4 + (6/30)·100·0.6 = 48`. -/
theorem c3_window_divisor_cex :
    (runFrames c3frames).confidence = 96 ∧
      (90 : ℚ) * (4/10) + ((6 : ℚ) / 30) * 100 * (6/10) = 48 ∧
      (runFrames c3frames).confidence ≠ 48 := by
  have hg : recognizeGeometricGesture hand5 = .ok (some "5") := by
    norm_num [recognizeGeometricGesture, geoCore, geoDecide, measure, extendedCount,
      getFingerState, isThumbExtended, ndsq, dsq, scaleSq, palmSizeSq, lmAt,
      Finger.idx, hand5, pt]
  have hne : hand5 ≠ [] := by simp [hand5]
  have hmn : ModelType.geometric ≠ ModelType.noModel := by decide
  have hs1 : ("5" : String) ≠ "1" := by decide
  have hsD : ("5" : String) ≠ "D" := by decide
  have hb5 : bestCandidate ["5", "5", "5", "5", "5"] = "5" := by decide
  have hb6 : bestCandidate ["5", "5", "5", "5", "5", "5"] = "5" := by decide
  have hc5 : (["5", "5", "5", "5", "5"] : List String).count "5" = 5 := by decide
  have hc6 : (["5", "5", "5", "5", "5", "5"] : List String).count "5" = 6 := by decide
  have e1 : handleFrame (c3state [] 0 0) 1000 hand5 = c3state ["5"] 0 0 := by
    norm_num [handleFrame, predictStep, hg, hne, hmn, hs1, hsD, motionPhase,
      stabilize, pushEvict, c3state, SCAN_DELAY_MS, PREDICTION_BUFFER_SIZE]
  have e2 : handleFrame (c3state ["5"] 0 0) 2000 hand5 = c3state ["5", "5"] 0 0 := by
    norm_num [handleFrame, predictStep, hg, hne, hmn, hs1, hsD, motionPhase,
      stabilize, pushEvict, c3state, SCAN_DELAY_MS, PREDICTION_BUFFER_SIZE]
  have e3 : handleFrame (c3state ["5", "5"] 0 0) 3000 hand5 =
      c3state ["5", "5", "5"] 0 0 := by
    norm_num [handleFrame, predictStep, hg, hne, hmn, hs1, hsD, motionPhase,
      stabilize, pushEvict, c3state, SCAN_DELAY_MS, PREDICTION_BUFFER_SIZE]
  have e4 : handleFrame (c3state ["5", "5", "5"] 0 0) 4000 hand5 =
      c3state ["5", "5", "5", "5"] 0 0 := by
    norm_num [handleFrame, predictStep, hg, hne, hmn, hs1, hsD, motionPhase,
      stabilize, pushEvict, c3state, SCAN_DELAY_MS, PREDICTION_BUFFER_SIZE]
  have e5 : handleFrame (c3state ["5", "5", "5", "5"] 0 0) 5000 hand5 =
      c3state ["5", "5", "5", "5", "5"] 96 20 := by
    norm_num [handleFrame, predictStep, hg, hne, hmn, hs1, hsD, motionPhase,
      stabilize, pushEvict, c3state, SCAN_DELAY_MS, PREDICTION_BUFFER_SIZE,
      REQUIRED_FRAMES, hb5, hc5, jsRound]
  have e6 : handleFrame (c3state ["5", "5", "5", "5", "5"] 96 20) 6000 hand5 =
      c3state ["5", "5", "5", "5", "5", "5"] 96 24 := by
    norm_num [handleFrame, predictStep, hg, hne, hmn, hs1, hsD, motionPhase,
      stabilize, pushEvict, c3state, SCAN_DELAY_MS, PREDICTION_BUFFER_SIZE,
      REQUIRED_FRAMES, hb6, hc6, jsRound]
  have hrun : runFrames c3frames = c3state ["5", "5", "5", "5", "5", "5"] 96 24 := by
    have hinit : initState = c3state [] 0 0 := by rw [initState, c3state]
    rw [runFrames, c3frames, hinit]
    simp only [List.foldl_cons, List.foldl_nil]
    rw [e1, e2, e3, e4, e5, e6]
  rw [hrun]
  refine ⟨rfl, by norm_num, by simp [c3state]⟩

/-! Lemmas about the neighbor sort. -/

theorem distLt_le {a b : Option ℚ} (h : distLt a b = true) : distLe a b = true := by
  rcases a with _ | x <;> rcases b with _ | y <;> simp_all [distLt, distLe] <;> linarith

theorem distLe_of_not_lt {a b : Option ℚ} (h : distLt a b = false) : distLe b a = true := by
  rcases a with _ | x <;> rcases b with _ | y <;> simp_all [distLt, distLe] <;> linarith

theorem distLe_trans {a b c : Option ℚ} (h1 : distLe a b = true) (h2 : distLe b c = true) :
    distLe a c = true := by
  rcases a with _ | x <;> rcases b with _ | y <;> rcases c with _ | z <;>
    simp_all [distLe] <;> linarith

theorem distLe_antisymm {a b : Option ℚ} (h1 : distLe a b = true) (h2 : distLe b a = true) :
    a = b := by
  rcases a with _ | x <;> rcases b with _ | y <;> simp_all [distLe]
  linarith

theorem insertNeighbor_perm (n : Neighbor) (l : List Neighbor) :
    (insertNeighbor n l).Perm (n :: l) := by
  induction l with
  | nil => simp [insertNeighbor]
  | cons m ms ih =>
    rw [insertNeighbor]
    split_ifs
    · exact (ih.cons m).trans (List.Perm.swap n m ms)
    · exact List.Perm.refl _

theorem sortByDist_perm (l : List Neighbor) : (sortByDist l).Perm l := by
  induction l with
  | nil => simp [sortByDist]
  | cons n ns ih =>
    rw [sortByDist]
    exact (insertNeighbor_perm n (sortByDist ns)).trans (ih.cons n)

theorem pairwise_insertNeighbor {n : Neighbor} {l : List Neighbor}
    (hl : l.Pairwise (fun x y => distLe x.distance y.distance = true)) :
    (insertNeighbor n l).Pairwise (fun x y => distLe x.distance y.distance = true) := by
  induction l with
  | nil => simp [insertNeighbor]
  | cons m ms ih =>
    rcases List.pairwise_cons.mp hl with ⟨hm, hms⟩
    rw [insertNeighbor]
    split_ifs with hlt
    · refine List.pairwise_cons.mpr ⟨?_, ih hms⟩
      intro x hx
      have hx' : x ∈ n :: ms := (insertNeighbor_perm n ms).mem_iff.mp hx
      rcases List.mem_cons.mp hx' with rfl | hx'
      · exact distLt_le hlt
      · exact hm x hx'
    · refine List.pairwise_cons.mpr ⟨?_, hl⟩
      intro x hx
      rcases List.mem_cons.mp hx with rfl | hx
      · exact distLe_of_not_lt (by simpa using hlt)
      · exact distLe_trans (distLe_of_not_lt (by simpa using hlt)) (hm x hx)

theorem sortByDist_sorted (l : List Neighbor) :
    (sortByDist l).Pairwise (fun x y => distLe x.distance y.distance = true) := by
  induction l with
  | nil => simp [sortByDist]
  | cons n ns ih =>
    rw [sortByDist]
    exact pairwise_insertNeighbor ih

theorem sorted_perm_eq_of_distinct :
    ∀ (l₁ l₂ : List Neighbor), l₁.Perm l₂ →
      l₁.Pairwise (fun x y => distLe x.distance y.distance = true) →
      l₂.Pairwise (fun x y => distLe x.distance y.distance = true) →
      l₁.Pairwise (fun x y => x.distance ≠ y.distance) →
      l₁ = l₂ := by
  intro l₁
  induction l₁ with
  | nil =>
    intro l₂ hp _ _ _
    exact (hp.symm.eq_nil).symm ▸ rfl
  | cons a t ih =>
    intro l₂ hp hs₁ hs₂ hd
    rcases l₂ with _ | ⟨b, t₂⟩
    · exact absurd hp.eq_nil (by simp)
    · have hab : a = b := by
        by_contra hne
        have ha2 : a ∈ b :: t₂ := hp.mem_iff.mp (List.mem_cons_self a t)
        have hb1 : b ∈ a :: t := hp.mem_iff.mpr (List.mem_cons_self b t₂)
        have ha2' : a ∈ t₂ := by
          rcases List.mem_cons.mp ha2 with h | h
          · exact absurd h hne
          · exact h
        have hb1' : b ∈ t := by
          rcases List.mem_cons.mp hb1 with h | h
          · exact absurd h.symm hne
          · exact h
        have h₁ : distLe a.distance b.distance = true :=
          (List.pairwise_cons.mp hs₁).1 b hb1'
        have h₂ : distLe b.distance a.distance = true :=
          (List.pairwise_cons.mp hs₂).1 a ha2'
        exact (List.pairwise_cons.mp hd).1 b hb1' (distLe_antisymm h₁ h₂)
      subst hab
      have ht : t.Perm t₂ := hp.cons_inv
      rw [ih t₂ ht (List.pairwise_cons.mp hs₁).2 (List.pairwise_cons.mp hs₂).2
        (List.pairwise_cons.mp hd).2]

/-- C5 (amended): the nearest-neighbor classifier is a pure function of
`(v, samples)` - determinism is immediate - and it is invariant to
reordering of the samples whenever the distances from the query to the
samples are pairwise distinct; under distance ties the stable sort preserves
input order and the K-boundary cut can change the result (see the
counterexample). -/
theorem c5_reorder_invariance (v : List ℚ) (s₁ s₂ : List TrainingSample)
    (hperm : s₁.Perm s₂)
    (hd : (s₁.map (fun t => calculateEuclideanDistance v t.vector)).Pairwise (· ≠ ·)) :
    predictKNN v s₁ = predictKNN v s₂ := by
  have hlen := hperm.length_eq
  rw [predictKNN, predictKNN, ← hlen]
  by_cases h0 : s₁.length = 0 ∨ v.length = 0
  · rw [if_pos h0, if_pos h0]
  · rw [if_neg h0, if_neg h0]
    have hpermd : (knnDistances v s₁).Perm (knnDistances v s₂) := hperm.map _
    have hd₁ : (knnDistances v s₁).Pairwise (fun x y => x.distance ≠ y.distance) := by
      rw [knnDistances, List.pairwise_map]
      simpa [List.pairwise_map] using hd
    have hsorteq : sortByDist (knnDistances v s₁) = sortByDist (knnDistances v s₂) := by
      apply sorted_perm_eq_of_distinct
      · exact (sortByDist_perm _).trans (hpermd.trans (sortByDist_perm _).symm)
      · exact sortByDist_sorted _
      · exact sortByDist_sorted _
      · exact ((sortByDist_perm _).pairwise_iff (fun h => Ne.symm h)).mpr hd₁
    have hngb : knnNeighbors v s₁ = knnNeighbors v s₂ := by
      rw [knnNeighbors, knnNeighbors, hsorteq, hlen]
    simp only [hngb]

/-- C5: reordering the samples CAN change the nearest-neighbor result when
several samples tie in distance at the K-boundary: six samples at distance 0
from the query, three "A" and three "B"; the stable sort keeps input order,
so the 5 nearest are the first five and the majority flips with the
ordering. -/
theorem c5_tie_reorder_cex :
    s5A.Perm s5B ∧ predictKNN [0, 0, 0] s5A ≠ predictKNN [0, 0, 0] s5B := by
  have hperm : s5A.Perm s5B := by
    have : s5A = [sampA, sampA, sampA] ++ [sampB, sampB, sampB] := by
      simp [s5A]
    rw [this]
    have : s5B = [sampB, sampB, sampB] ++ [sampA, sampA, sampA] := by
      simp [s5B]
    rw [this]
    exact List.perm_append_comm
  have hAB : ("A" : String) ≠ "B" := by decide
  have hBA : ("B" : String) ≠ "A" := by decide
  have hAe : ("A" : String) ≠ "" := by decide
  have hBe : ("B" : String) ≠ "" := by decide
  have hkA : jsKeys ["A", "A", "A", "B", "B"] = ["A", "B"] := by decide
  have hkB : jsKeys ["B", "B", "B", "A", "A"] = ["B", "A"] := by decide
  have hA : predictKNN [0, 0, 0] s5A = some ("A", 60) := by
    norm_num [predictKNN, knnNeighbors, knnDistances, s5A, sampA, sampB,
      calculateEuclideanDistance, ratSqrt,
      sortByDist, insertNeighbor, distLt, findWinner, hkA, nWeight, voteWeight,
      totalNWeight, K, hAB, hBA, hAe, hBe, List.foldl_cons, List.foldl_nil, List.filter_cons,
      List.filter_nil, List.sum_cons, List.sum_nil, List.take_succ_cons,
      List.take_zero, min_def]
  have hB : predictKNN [0, 0, 0] s5B = some ("B", 60) := by
    norm_num [predictKNN, knnNeighbors, knnDistances, s5B, sampA, sampB,
      calculateEuclideanDistance, ratSqrt,
      sortByDist, insertNeighbor, distLt, findWinner, hkB, nWeight, voteWeight,
      totalNWeight, K, hAB, hBA, hAe, hBe, List.foldl_cons, List.foldl_nil, List.filter_cons,
      List.filter_nil, List.sum_cons, List.sum_nil, List.take_succ_cons,
      List.take_zero, min_def]
  refine ⟨hperm, ?_⟩
  rw [hA, hB]
  simp

/-- Witness for `c5_reorder_invariance`: two samples at the distinct
distances 0 and 3 classify identically in either order. -/
theorem c5_reorder_invariance_witness :
    ([sampA, sampB3] : List TrainingSample).Perm [sampB3, sampA] ∧
      (([sampA, sampB3] : List TrainingSample).map
          (fun t => calculateEuclideanDistance [0, 0, 0] t.vector)).Pairwise (· ≠ ·) ∧
      predictKNN [0, 0, 0] [sampA, sampB3] = predictKNN [0, 0, 0] [sampB3, sampA] := by
  have hperm : ([sampA, sampB3] : List TrainingSample).Perm [sampB3, sampA] :=
    List.Perm.swap sampB3 sampA []
  have h0 : ratSqrt 0 = 0 := by norm_num [ratSqrt]
  have h9 : ratSqrt 9 = 3 := by
    simp [ratSqrt]
    norm_num
  have hd : (([sampA, sampB3] : List TrainingSample).map
      (fun t => calculateEuclideanDistance [0, 0, 0] t.vector)).Pairwise (· ≠ ·) := by
    norm_num [sampA, sampB3, calculateEuclideanDistance, h0, h9]
  exact ⟨hperm, hd, c5_reorder_invariance [0, 0, 0] _ _ hperm hd⟩

/-! Lemmas for the mismatched-sample analysis of predictKNN. -/

theorem ratSqrt_nonneg (q : ℚ) : 0 ≤ ratSqrt q := by
  rw [ratSqrt]
  positivity

theorem calcDist_nonneg (v w : List ℚ) (q : ℚ)
    (h : calculateEuclideanDistance v w = some q) : 0 ≤ q := by
  rw [calculateEuclideanDistance] at h
  split_ifs at h
  simp only [Option.some_inj] at h
  rw [← h]
  exact ratSqrt_nonneg _

theorem calcDist_len_of_some (v w : List ℚ) (q : ℚ)
    (h : calculateEuclideanDistance v w = some q) : w.length = v.length := by
  by_contra hne
  rw [calculateEuclideanDistance, if_pos (fun hh => hne hh.symm)] at h
  simp at h

theorem calcDist_some_of_len (v w : List ℚ) (h : w.length = v.length) :
    ∃ q, calculateEuclideanDistance v w = some q := by
  rw [calculateEuclideanDistance, if_neg (by simp [h])]
  exact ⟨_, rfl⟩

theorem nWeight_nonneg_of (d : Option ℚ) (h : ∀ q, d = some q → 0 ≤ q) :
    0 ≤ nWeight d := by
  rcases d with _ | q
  · simp [nWeight]
  · have hq : 0 ≤ q := h q rfl
    rw [nWeight]
    positivity

theorem nWeight_pos_of (q : ℚ) (hq : 0 ≤ q) : 0 < nWeight (some q) := by
  rw [nWeight]
  positivity

theorem single_le_voteWeight (ns : List Neighbor) (n : Neighbor) (hn : n ∈ ns)
    (hok : ∀ m ∈ ns, ∀ q, m.distance = some q → 0 ≤ q) :
    nWeight n.distance ≤ voteWeight ns n.label := by
  rw [voteWeight]
  apply List.single_le_sum
  · intro x hx
    rw [List.mem_map] at hx
    obtain ⟨m, hm, rfl⟩ := hx
    exact nWeight_nonneg_of _ (hok m (List.mem_filter.mp hm).1)
  · apply List.mem_map_of_mem
    rw [List.mem_filter]
    exact ⟨hn, by simp⟩

theorem voteWeight_pos_support (ns : List Neighbor) (w : String)
    (hpos : 0 < voteWeight ns w) :
    ∃ n ∈ ns, n.label = w ∧ ∃ q, n.distance = some q := by
  by_contra hcon
  push_neg at hcon
  have hz : voteWeight ns w = 0 := by
    rw [voteWeight]
    apply List.sum_eq_zero
    intro x hx
    rw [List.mem_map] at hx
    obtain ⟨m, hm, rfl⟩ := hx
    rw [List.mem_filter] at hm
    have hml : m.label = w := by simpa using hm.2
    rcases hd : m.distance with _ | q
    · simp [nWeight]
    · exact absurd hd (hcon m hm.1 hml q)
  rw [hz] at hpos
  exact lt_irrefl 0 hpos

theorem findWinner_go (ns : List Neighbor) :
    ∀ (keys : List String) (w₀ : String),
      ∃ w, keys.foldl
          (fun acc lbl =>
            match acc with
            | none => some (lbl, voteWeight ns lbl)
            | some (x, mw) =>
              if voteWeight ns lbl > mw then some (lbl, voteWeight ns lbl)
              else some (x, mw))
          (some (w₀, voteWeight ns w₀)) = some (w, voteWeight ns w) ∧
        (w = w₀ ∨ w ∈ keys) ∧ voteWeight ns w₀ ≤ voteWeight ns w ∧
        ∀ lbl ∈ keys, voteWeight ns lbl ≤ voteWeight ns w := by
  intro keys
  induction keys with
  | nil =>
    intro w₀
    exact ⟨w₀, rfl, Or.inl rfl, le_refl _, by simp⟩
  | cons k ks ih =>
    intro w₀
    simp only [List.foldl_cons]
    by_cases hgt : voteWeight ns k > voteWeight ns w₀
    · rw [if_pos hgt]
      obtain ⟨w, hw, hmem, hle, hall⟩ := ih k
      refine ⟨w, hw, ?_, le_trans (le_of_lt hgt) hle, ?_⟩
      · rcases hmem with rfl | h
        · exact Or.inr (List.mem_cons_self _ _)
        · exact Or.inr (List.mem_cons_of_mem _ h)
      · intro lbl hlbl
        rcases List.mem_cons.mp hlbl with rfl | hlbl
        · exact hle
        · exact hall lbl hlbl
    · rw [if_neg hgt]
      obtain ⟨w, hw, hmem, hle, hall⟩ := ih w₀
      refine ⟨w, hw, ?_, hle, ?_⟩
      · rcases hmem with rfl | h
        · exact Or.inl rfl
        · exact Or.inr (List.mem_cons_of_mem _ h)
      · intro lbl hlbl
        rcases List.mem_cons.mp hlbl with rfl | hlbl
        · exact le_trans (le_of_not_lt hgt) hle
        · exact hall lbl hlbl

theorem findWinner_spec (ns : List Neighbor) (hne : ns ≠ []) :
    ∃ w, findWinner ns = some (w, voteWeight ns w) ∧
      w ∈ jsKeys (ns.map Neighbor.label) ∧
      ∀ lbl ∈ jsKeys (ns.map Neighbor.label), voteWeight ns lbl ≤ voteWeight ns w := by
  obtain ⟨n₀, hn₀⟩ := List.exists_mem_of_ne_nil ns hne
  have hmem₀ : n₀.label ∈ jsKeys (ns.map Neighbor.label) :=
    mem_jsKeys (List.mem_map_of_mem _ hn₀)
  rcases hk : jsKeys (ns.map Neighbor.label) with _ | ⟨k₁, krest⟩
  · rw [hk] at hmem₀
    simp at hmem₀
  · rw [findWinner, hk]
    simp only [List.foldl_cons]
    obtain ⟨w, hw, hmem, hle, hall⟩ := findWinner_go ns krest k₁
    refine ⟨w, hw, ?_, ?_⟩
    · rcases hmem with rfl | h
      · exact List.mem_cons_self _ _
      · exact List.mem_cons_of_mem _ h
    · intro lbl hlbl
      rcases List.mem_cons.mp hlbl with rfl | hlbl
      · exact hle
      · exact hall lbl hlbl

theorem head_some_of_sorted (h : Neighbor) (rest : List Neighbor)
    (hs : (h :: rest).Pairwise (fun x y => distLe x.distance y.distance = true))
    (x : Neighbor) (hx : x ∈ h :: rest) (q : ℚ) (hq : x.distance = some q) :
    ∃ p, h.distance = some p := by
  rcases hd : h.distance with _ | p
  · rcases List.mem_cons.mp hx with rfl | hx'
    · rw [hq] at hd
      simp at hd
    · have hle := (List.pairwise_cons.mp hs).1 x hx'
      rw [hd, hq] at hle
      simp [distLe] at hle
  · exact ⟨p, rfl⟩

theorem predictKNN_empty_label_null :
    predictKNN [0, 0] [TrainingSample.mk "" [0, 0]] = none := by
  have hk : jsKeys [""] = [""] := by decide
  norm_num [predictKNN, knnNeighbors, knnDistances, calculateEuclideanDistance,
    ratSqrt, sortByDist, insertNeighbor, distLt, findWinner, hk, nWeight,
    voteWeight, totalNWeight, K, List.foldl_cons, List.foldl_nil,
    List.filter_cons, List.filter_nil, List.sum_cons, List.sum_nil,
    List.take_succ_cons, List.take_zero, min_def]

/-- C7 (amended): a training sample whose vector length differs from the
query's receives distance Infinity, hence voting weight 0 (JS `1/Infinity`),
and no error is raised; whenever at least one sample's length matches the
query (and no sample carries the empty-string label, which is falsy in JS
and makes `if (!winner) return null` fire), the returned winner label is
carried by a matching-length sample, so labels supported only by mismatched
samples never win.  When ALL samples mismatch, however, predictKNN still
returns the first enumerated non-empty label with confidence 0 rather than
none (see the counterexample). -/
theorem c7_mismatch_excluded (v : List ℚ) (td : List TrainingSample)
    (hv : v.length ≠ 0) (hlabels : ∀ t ∈ td, t.label ≠ "")
    (t₀ : TrainingSample) (ht₀ : t₀ ∈ td)
    (hlen0 : t₀.vector.length = v.length) :
    ∃ r c, predictKNN v td = some (r, c) ∧
      ∃ t ∈ td, t.label = r ∧ t.vector.length = v.length := by
  have htdne : td ≠ [] := by
    rintro rfl
    simp at ht₀
  have htdlen : td.length ≠ 0 := fun h => htdne (List.length_eq_zero.mp h)
  have hpos : 0 < min K td.length := by
    have : 0 < td.length := Nat.pos_of_ne_zero htdlen
    simp only [K]
    omega
  have hokd : ∀ n ∈ knnDistances v td, ∀ q, n.distance = some q → 0 ≤ q := by
    intro n hn q hq
    rw [knnDistances, List.mem_map] at hn
    obtain ⟨t, _, rfl⟩ := hn
    exact calcDist_nonneg v t.vector q hq
  have hok : ∀ n ∈ knnNeighbors v td, ∀ q, n.distance = some q → 0 ≤ q := by
    intro n hn q hq
    have hn' : n ∈ knnDistances v td :=
      (sortByDist_perm _).mem_iff.mp (List.mem_of_mem_take hn)
    exact hokd n hn' q hq
  obtain ⟨q₀, hq₀⟩ := calcDist_some_of_len v t₀.vector hlen0
  have hfin : Neighbor.mk t₀.label (calculateEuclideanDistance v t₀.vector) ∈
      sortByDist (knnDistances v td) := by
    apply (sortByDist_perm _).mem_iff.mpr
    rw [knnDistances, List.mem_map]
    exact ⟨t₀, ht₀, rfl⟩
  rcases hs : sortByDist (knnDistances v td) with _ | ⟨hd, rest⟩
  · rw [hs] at hfin
    simp at hfin
  · have hsorted := sortByDist_sorted (knnDistances v td)
    rw [hs] at hsorted hfin
    obtain ⟨p, hp⟩ := head_some_of_sorted hd rest hsorted _ hfin q₀ (by simpa using hq₀)
    have hm : hd ∈ knnNeighbors v td := by
      rw [knnNeighbors, hs]
      obtain ⟨m, hm'⟩ := Nat.exists_eq_succ_of_ne_zero (Nat.pos_iff_ne_zero.mp hpos)
      rw [hm', List.take_succ_cons]
      exact List.mem_cons_self _ _
    have hNSne : knnNeighbors v td ≠ [] := fun h => by
      rw [h] at hm
      simp at hm
    have hp0 : 0 ≤ p := hok hd hm p hp
    have hwpos : 0 < nWeight hd.distance := by
      rw [hp]
      exact nWeight_pos_of p hp0
    have hvw : 0 < voteWeight (knnNeighbors v td) hd.label :=
      lt_of_lt_of_le hwpos (single_le_voteWeight _ hd hm hok)
    obtain ⟨w, hw, hwmem, hwmax⟩ := findWinner_spec (knnNeighbors v td) hNSne
    have hwkey : hd.label ∈ jsKeys ((knnNeighbors v td).map Neighbor.label) := by
      apply mem_jsKeys
      exact List.mem_map_of_mem _ hm
    have hwpos' : 0 < voteWeight (knnNeighbors v td) w :=
      lt_of_lt_of_le hvw (hwmax hd.label hwkey)
    obtain ⟨n, hnmem, hnlbl, q, hnq⟩ := voteWeight_pos_support _ _ hwpos'
    have hn' : n ∈ knnDistances v td :=
      (sortByDist_perm _).mem_iff.mp (List.mem_of_mem_take hnmem)
    rw [knnDistances, List.mem_map] at hn'
    obtain ⟨t, htmem, htn⟩ := hn'
    have htlbl : t.label = w := by
      rw [← hnlbl, ← htn]
    have htdist : calculateEuclideanDistance v t.vector = some q := by
      have : n.distance = some q := hnq
      rw [← htn] at this
      exact this
    have htlen : t.vector.length = v.length := calcDist_len_of_some _ _ _ htdist
    have hwne : w ≠ "" := htlbl ▸ hlabels t htmem
    have hres : predictKNN v td = some (w,
        min ((if totalNWeight (knnNeighbors v td) > 0 then
            voteWeight (knnNeighbors v td) w / totalNWeight (knnNeighbors v td)
          else 0) * 100) 100) := by
      rw [predictKNN, if_neg (by push_neg; exact ⟨htdlen, hv⟩)]
      simp only [hw]
      rw [if_neg hwne]
    exact ⟨w, _, hres, t, htmem, htlbl, htlen⟩

/-- C7: when ALL samples mismatch the query's vector length, predictKNN does
not exclude them: every distance is Infinity, every weight 0, and the first
sample's (non-empty) label is returned as the winner with confidence 0,
contradicting "its label is never returned as the winner". -/
theorem c7_all_mismatch_cex :
    sampQ.vector.length ≠ ([0, 0] : List ℚ).length ∧
      calculateEuclideanDistance [0, 0] sampQ.vector = none ∧
      predictKNN [0, 0] [sampQ] = some ("Q", 0) := by
  refine ⟨by simp [sampQ], by simp [calculateEuclideanDistance, sampQ], ?_⟩
  have hkQ : jsKeys ["Q"] = ["Q"] := by decide
  have hQe : ("Q" : String) ≠ "" := by decide
  norm_num [predictKNN, knnNeighbors, knnDistances, sampQ, calculateEuclideanDistance,
    sortByDist, insertNeighbor, distLt, findWinner, hkQ, hQe, nWeight, voteWeight,
    totalNWeight, K, List.foldl_cons, List.foldl_nil, List.filter_cons,
    List.filter_nil, List.sum_cons, List.sum_nil, List.take_succ_cons,
    List.take_zero, min_def]

/-- Witness for `c7_mismatch_excluded`: a mismatched "Q" sample together with
a matching "P" sample; the winner is backed by the matching sample. -/
theorem c7_mismatch_excluded_witness :
    ([0, 0] : List ℚ).length ≠ 0 ∧ (∀ t ∈ [sampQ, sampP], t.label ≠ "") ∧
      sampP ∈ [sampQ, sampP] ∧
      sampP.vector.length = ([0, 0] : List ℚ).length ∧
      ∃ r c, predictKNN [0, 0] [sampQ, sampP] = some (r, c) ∧
        ∃ t ∈ [sampQ, sampP], t.label = r ∧
          t.vector.length = ([0, 0] : List ℚ).length := by
  have h1 : ([0, 0] : List ℚ).length ≠ 0 := by simp
  have hl : ∀ t ∈ [sampQ, sampP], t.label ≠ "" := by
    intro t ht
    rcases List.mem_cons.mp ht with rfl | ht
    · simp [sampQ]
    · rcases List.mem_cons.mp ht with rfl | ht
      · simp [sampP]
      · simp at ht
  have h2 : sampP ∈ [sampQ, sampP] :=
    List.mem_cons_of_mem _ (List.mem_cons_self _ _)
  have h3 : sampP.vector.length = ([0, 0] : List ℚ).length := rfl
  exact ⟨h1, hl, h2, h3,
    c7_mismatch_excluded [0, 0] [sampQ, sampP] h1 hl sampP h2 h3⟩

end Gamay
